import Mathlib

/-
Verification of the kernel execution engine of the parcels repository
(src/parcels/kernel.py) against its natural-language specification.

The development shallowly embeds the code that the claims are about:
  - the compiled-artifact cache identity (Kernel._cache_key, kernel.py lines 179-184),
    including a full executable MD5 so that identities can be computed and compared;
  - kernel construction (Kernel.__init__, lines 71-166): arity check and the
    derived record fields;
  - kernel composition (Kernel.merge / __add__ / __radd__, lines 451-470);
  - the interpreted per-particle update loop (Kernel.execute_python, lines 270-356);
  - the orchestration / recovery loop (Kernel.execute, lines 358-449).

Numbers that are floats in the source (times, time steps, coordinates) are
modelled as rationals; numpy isclose / sign are transcribed with their
default tolerances.  Python while loops are modelled with an explicit fuel
parameter; all claims about termination are phrased as fuel-independence.

Methods of Particle and the error/codegen modules are not part of src/ in this
snapshot; where a claim depends on them they are modelled from the
specification text and marked as such in their doc comments.
-/

namespace Parcels

/- ===================== MD5 (hashlib.md5(...).hexdigest()) ===================== -/

namespace MD5

/-- The 32-bit modulus used for all MD5 word arithmetic. -/
def M32 : Nat := 4294967296

/-- Addition modulo 2^32. -/
def add32 (a b : Nat) : Nat := (a + b) % M32

/-- Bitwise complement on 32-bit words (operands stay below 2^32). -/
def not32 (a : Nat) : Nat := a ^^^ 4294967295

/-- Left rotation of a 32-bit word. -/
def rotl (x s : Nat) : Nat := ((x <<< s) % M32) ||| (x >>> (32 - s))

/-- The 64 MD5 round constants (floor(2^32 * abs(sin(i+1)))). -/
def K : Array Nat := #[
  0xd76aa478, 0xe8c7b756, 0x242070db, 0xc1bdceee,
  0xf57c0faf, 0x4787c62a, 0xa8304613, 0xfd469501,
  0x698098d8, 0x8b44f7af, 0xffff5bb1, 0x895cd7be,
  0x6b901122, 0xfd987193, 0xa679438e, 0x49b40821,
  0xf61e2562, 0xc040b340, 0x265e5a51, 0xe9b6c7aa,
  0xd62f105d, 0x02441453, 0xd8a1e681, 0xe7d3fbc8,
  0x21e1cde6, 0xc33707d6, 0xf4d50d87, 0x455a14ed,
  0xa9e3e905, 0xfcefa3f8, 0x676f02d9, 0x8d2a4c8a,
  0xfffa3942, 0x8771f681, 0x6d9d6122, 0xfde5380c,
  0xa4beea44, 0x4bdecfa9, 0xf6bb4b60, 0xbebfbc70,
  0x289b7ec6, 0xeaa127fa, 0xd4ef3085, 0x04881d05,
  0xd9d4d039, 0xe6db99e5, 0x1fa27cf8, 0xc4ac5665,
  0xf4292244, 0x432aff97, 0xab9423a7, 0xfc93a039,
  0x655b59c3, 0x8f0ccc92, 0xffeff47d, 0x85845dd1,
  0x6fa87e4f, 0xfe2ce6e0, 0xa3014314, 0x4e0811a1,
  0xf7537e82, 0xbd3af235, 0x2ad7d2bb, 0xeb86d391]

/-- The 64 MD5 per-round left-rotation amounts. -/
def S : Array Nat := #[
  7, 12, 17, 22, 7, 12, 17, 22, 7, 12, 17, 22, 7, 12, 17, 22,
  5, 9, 14, 20, 5, 9, 14, 20, 5, 9, 14, 20, 5, 9, 14, 20,
  4, 11, 16, 23, 4, 11, 16, 23, 4, 11, 16, 23, 4, 11, 16, 23,
  6, 10, 15, 21, 6, 10, 15, 21, 6, 10, 15, 21, 6, 10, 15, 21]

/-- One MD5 round on the state (a, b, c, d) with message words m. -/
def roundStep (m : Array Nat) (st : Nat × Nat × Nat × Nat) (i : Nat) : Nat × Nat × Nat × Nat :=
  let a := st.1
  let b := st.2.1
  let c := st.2.2.1
  let d := st.2.2.2
  let fg : Nat × Nat :=
    if i < 16 then ((b &&& c) ||| (not32 b &&& d), i)
    else if i < 32 then ((d &&& b) ||| (not32 d &&& c), (5 * i + 1) % 16)
    else if i < 48 then (b ^^^ c ^^^ d, (3 * i + 5) % 16)
    else (c ^^^ (b ||| not32 d), (7 * i) % 16)
  let f := (fg.1 + a + K.getD i 0 + m.getD fg.2 0) % M32
  (d, add32 b (rotl f (S.getD i 0)), b, c)

/-- Process one 512-bit chunk, updating the running state. -/
def processChunk (st : Nat × Nat × Nat × Nat) (m : Array Nat) : Nat × Nat × Nat × Nat :=
  let r := (List.range 64).foldl (roundStep m) st
  (add32 st.1 r.1, add32 st.2.1 r.2.1, add32 st.2.2.1 r.2.2.1, add32 st.2.2.2 r.2.2.2)

/-- MD5 padding: append 0x80, zero-fill to 56 mod 64, then the 64-bit
little-endian bit length. -/
def padMessage (msg : List Nat) : List Nat :=
  let len := msg.length
  let padZeros := (119 - (len % 64)) % 64
  let bitlen := (8 * len) % (2 ^ 64)
  let lenBytes := (List.range 8).map fun i => (bitlen >>> (8 * i)) % 256
  msg ++ [128] ++ List.replicate padZeros 0 ++ lenBytes

/-- Split a byte list into 64-byte chunks (fuel equals the list length). -/
def toChunksAux : Nat → List Nat → List (List Nat)
  | 0, _ => []
  | _, [] => []
  | fuel + 1, l => l.take 64 :: toChunksAux fuel (l.drop 64)

/-- Split a padded byte list into 64-byte chunks. -/
def toChunks (l : List Nat) : List (List Nat) := toChunksAux l.length l

/-- Decode a 64-byte chunk into 16 little-endian 32-bit words. -/
def chunkWords (chunk : List Nat) : Array Nat :=
  ((List.range 16).map fun j =>
    chunk.getD (4 * j) 0 + 256 * chunk.getD (4 * j + 1) 0 +
    65536 * chunk.getD (4 * j + 2) 0 + 16777216 * chunk.getD (4 * j + 3) 0).toArray

/-- The 16-byte MD5 digest of a byte list. -/
def md5bytes (msg : List Nat) : List Nat :=
  let chunks := toChunks (padMessage msg)
  let st := chunks.foldl (fun st ch => processChunk st (chunkWords ch))
    (0x67452301, 0xefcdab89, 0x98badcfe, 0x10325476)
  ([st.1, st.2.1, st.2.2.1, st.2.2.2].map fun w =>
    (List.range 4).map fun i => (w >>> (8 * i)) % 256).flatten

/-- Lower-case hex digit. -/
def hexChar (n : Nat) : Char := "0123456789abcdef".data.getD n '0'

/-- Two-digit lower-case hex rendering of a byte. -/
def byteHex (b : Nat) : String := String.mk [hexChar (b / 16), hexChar (b % 16)]

/-- Bytes of a string under UTF-8; all strings hashed in this development are
ASCII, for which the code units are exactly the character codes. -/
def strBytes (s : String) : List Nat := s.data.map Char.toNat

/-- hashlib.md5(key.encode("utf-8")).hexdigest() -/
def md5hex (s : String) : String := String.join ((md5bytes (strBytes s)).map byteHex)

end MD5

/- ===================== Cache identity (Kernel._cache_key) ===================== -/

/-- Python "-".join over a list of strings. -/
def joinDash : List String → String
  | [] => ""
  | [x] => x
  | x :: y :: rest => x ++ "-" ++ joinDash (y :: rest)

/-- kernel.py lines 181-182: the joined field-argument component of the cache
key, "-".join("%s:%s" % (name, field.units.__class__.__name__) ...); each
field argument is modelled as the pair (name, units-class name). -/
def fieldKeys (field_args : List (String × String)) : String :=
  joinDash (field_args.map fun fa => fa.1 ++ ":" ++ fa.2)

/-- kernel.py line 183: the string that is hashed,
key = self.name + self.ptype._cache_key + field_keys + ("TIME:%f" % time.time());
the formatted wall-clock reading is taken as a string parameter. -/
def cacheKeyInput (name ptypeKey : String) (field_args : List (String × String))
    (timeStr : String) : String :=
  name ++ ptypeKey ++ fieldKeys field_args ++ ("TIME:" ++ timeStr)

/-- kernel.py line 184: the cache identity, md5(key).hexdigest(). -/
def cacheKey (name ptypeKey : String) (field_args : List (String × String))
    (timeStr : String) : String :=
  MD5.md5hex (cacheKeyInput name ptypeKey field_args timeStr)

/- ===================== Data model ===================== -/

/-- Per-particle execution states (parcels.tools.error.ErrorCode as used by
kernel.py; the module itself is outside src/, the constructor set is the one
the engine and the spec use). -/
inductive ErrorCode where
  | Success
  | Evaluate
  | Repeat
  | Delete
  | StopExecution
  | Error
  | ErrorOutOfBounds
  | ErrorThroughSurface
  | ErrorTimeExtrapolation
  deriving DecidableEq, Repr

/-- The typed conditions a kernel invocation can raise (kernel.py lines
316-325 catches FieldOutOfBoundError, FieldOutOfBoundSurfaceError,
TimeExtrapolationError, and any other exception).  The classes themselves are
not under src/ in this snapshot; they are modelled from the spec as four
distinct condition kinds, each carrying a payload so that distinct condition
objects can be told apart. -/
inductive PyException where
  | outOfBound (id : Nat)
  | outOfBoundSurface (id : Nat)
  | timeExtrapolation (id : Nat)
  | other (id : Nat)
  deriving DecidableEq, Repr

/-- A particle.  time, dt, lon, lat, depth are the ptype variables the
interpreted loop backs up and restores; exception is the plain attribute the
except handlers assign (kernel.py lines 318-327); next_dt models the private
attribute behind update_next_dt and is not a ptype variable. -/
structure Particle where
  time : ℚ
  dt : ℚ
  lon : ℚ
  lat : ℚ
  depth : ℚ
  state : ErrorCode
  exception : Option PyException
  next_dt : Option ℚ
  deriving DecidableEq, Repr

/-- Modelled from the spec: particle.reset_state() returns the particle to the
ready-to-run state; step 1 of the orchestrator "Reset every particle's state
to Evaluate". -/
def Particle.reset_state (p : Particle) : Particle := { p with state := ErrorCode.Evaluate }

/-- Modelled from the spec: particle.delete() marks the particle for removal
("else (no mapped recovery) mark Delete"). -/
def Particle.delete (p : Particle) : Particle := { p with state := ErrorCode.Delete }

/-- Modelled from the spec: particle.isComputed() is the completion signal of
a recovery action ("the recovery kernel signals the particle has completed its
recovery action").  The engine pre-sets the state to Success before invoking
the recovery kernel (kernel.py line 431), so the signal is that the state is
still Success afterwards. -/
def Particle.isComputed (p : Particle) : Bool := p.state == ErrorCode.Success

/-- Modelled from the spec: particle.update_next_dt() recomputes the particle
next step size: a pending next step size, when one was requested, becomes the
current dt. -/
def Particle.update_next_dt (p : Particle) : Particle :=
  match p.next_dt with
  | some v => { p with dt := v, next_dt := none }
  | none => p

/-- A field set; its internals (grids, chunk state) are external collaborators,
so it is carried as an id only. -/
structure FieldSet where
  id : Nat
  deriving DecidableEq, Repr

/-- A particle type: name and _cache_key attribute, plus the uses_jit flag
that selects the execution engine. -/
structure PType where
  name : String
  cache_key : String
  uses_jit : Bool
  deriving DecidableEq, Repr

/-- A statement of a kernel body; statements are only ever concatenated, so
they are carried as ids. -/
structure Stmt where
  id : Nat
  deriving DecidableEq, Repr

/-- The FunctionDef node of a kernel: its name, the number of formal
parameters of its argument list, and its statement sequence (kernel.py keeps
self.py_ast and merge concatenates the bodies, lines 453-455). -/
structure PyAST where
  name : String
  argCount : Nat
  body : List Stmt
  deriving DecidableEq, Repr

/-- A plain Python callable handed to the Kernel constructor: __name__, the
source text from inspect.getsource, the parsed FunctionDef, and
__code__.co_varnames.  The number of parameters reported by
inspect.getfullargspec equals the argument count of its FunctionDef. -/
structure PyFunc where
  name : String
  source : String
  ast : PyAST
  varnames : List String
  deriving DecidableEq, Repr

/-- Construction failures.  The source raises an AssertionError for a wrong
arity (kernel.py line 127); the spec names this ArityError.
IncompatibleKernelError exists only in the spec vocabulary (merge of
mismatched kernels); the source never raises it, and the constructor is
present here only so that the corresponding claim can be stated. -/
inductive KernelError where
  | ArityError
  | IncompatibleKernelError
  deriving DecidableEq, Repr

/-- Modelled from the spec: the code-generation adapter is a deterministic
function of the kernel syntax tree, free-variable list, particle type and
field set (spec section 4.2); the generator lives outside src/, so the
generated artifact is represented by its generation inputs. -/
structure CCode where
  fieldset : FieldSet
  ptype : PType
  funcname : String
  py_ast : PyAST
  funcvars : List String
  deriving DecidableEq, Repr

/-- The Kernel record: the fields Kernel.__init__ derives and stores
(kernel.py lines 71-166).  ccode is some generated artifact exactly when the
particle type uses the JIT engine. -/
structure Kernel where
  fieldset : FieldSet
  ptype : PType
  funcname : String
  funccode : String
  py_ast : PyAST
  funcvars : List String
  name : String
  delete_cfiles : Bool
  ccode : Option CCode
  deriving DecidableEq, Repr

/-- Kernel.__init__ with the meta information already resolved (funcname,
funccode, py_ast, funcvars), as used on the merge path (pyfunc=None): the
function compiled from the AST has as many parameters as the AST argument
list, the arity assertion (line 127) runs before any code generation
(lines 133-166), and on success the record fields are set as in the source
(name = ptype.name + funcname, line 130). -/
def mkKernel (fieldset : FieldSet) (ptype : PType) (funcname funccode : String)
    (py_ast : PyAST) (funcvars : List String) (delete_cfiles : Bool) :
    Except KernelError Kernel :=
  if py_ast.argCount ≠ 3 then Except.error KernelError.ArityError
  else Except.ok {
    fieldset := fieldset
    ptype := ptype
    funcname := funcname
    funccode := funccode
    py_ast := py_ast
    funcvars := funcvars
    name := ptype.name ++ funcname
    delete_cfiles := delete_cfiles
    ccode := if ptype.uses_jit then
        some { fieldset := fieldset, ptype := ptype, funcname := funcname,
               py_ast := py_ast, funcvars := funcvars }
      else none }

/-- Kernel.__init__ from a plain callable (the pyfunc path): funcname from
__name__, funcvars from co_varnames, funccode from getsource, py_ast from
parsing the source, which is the FunctionDef of the callable. -/
def mkKernelFromPyfunc (fieldset : FieldSet) (ptype : PType) (f : PyFunc) :
    Except KernelError Kernel :=
  mkKernel fieldset ptype f.name f.source f.ast f.varnames true

/-- Kernel.merge (kernel.py lines 451-460): concatenated funcname, a new
FunctionDef with the left operand argument list and the concatenated bodies,
concatenated funccode and funcvars, and a new Kernel over the left operand
fieldset and ptype. -/
def Kernel.merge (self kernel : Kernel) : Except KernelError Kernel :=
  let funcname := self.funcname ++ kernel.funcname
  let func_ast : PyAST := {
    name := funcname
    argCount := self.py_ast.argCount
    body := self.py_ast.body ++ kernel.py_ast.body }
  mkKernel self.fieldset self.ptype funcname (self.funccode ++ kernel.funccode)
    func_ast (self.funcvars ++ kernel.funcvars)
    (self.delete_cfiles && kernel.delete_cfiles)

/-- Kernel.__radd__ (kernel.py lines 467-470) on a plain callable: wrap the
callable into a Kernel over this kernel fieldset and ptype, then
wrapped.merge(self). -/
def Kernel.radd (self : Kernel) (f : PyFunc) : Except KernelError Kernel :=
  match mkKernelFromPyfunc self.fieldset self.ptype f with
  | Except.error e => Except.error e
  | Except.ok k => k.merge self

/-- Kernel.__add__ (kernel.py lines 462-465) on a plain callable: wrap the
callable, then self.merge(wrapped). -/
def Kernel.addFunc (self : Kernel) (f : PyFunc) : Except KernelError Kernel :=
  match mkKernelFromPyfunc self.fieldset self.ptype f with
  | Except.error e => Except.error e
  | Except.ok k => self.merge k

/-- The cache identity of a kernel given the field arguments discovered by
code generation and the formatted wall-clock reading (kernel.py 179-184). -/
def Kernel.cache_key (k : Kernel) (field_args : List (String × String))
    (timeStr : String) : String :=
  cacheKey k.name k.ptype.cache_key field_args timeStr

/- ===================== Interpreted pass (Kernel.execute_python) ===================== -/

/-- np.sign on rationals (numpy sign of a float is a float). -/
def sign (x : ℚ) : ℚ := if 0 < x then 1 else if x < 0 then -1 else 0

/-- np.isclose with its default tolerances rtol=1e-5, atol=1e-8:
abs(a - b) <= atol + rtol * abs(b). -/
def IsClose (a b : ℚ) : Prop := |a - b| ≤ 1 / 100000000 + |b| / 100000

instance (a b : ℚ) : Decidable (IsClose a b) := inferInstanceAs (Decidable (_ ≤ _))

/-- What one invocation of the user kernel function does to its particle: it
either returns (a value that is None or an ErrorCode) leaving the particle in
a mutated state, or raises a condition, likewise leaving the particle in the
state reached before the raise. -/
inductive PyResult where
  | ret (p : Particle) (res : Option ErrorCode)
  | exc (p : Particle) (e : PyException)
  deriving DecidableEq

/-- The interpreted kernel callable: invoked as pyfunc(particle, fieldset,
time) (kernel.py line 306). -/
def PyFuncRun := Particle → FieldSet → ℚ → PyResult

/-- The ErrorCode each except clause assigns (kernel.py lines 316-326). -/
def exceptionCode : PyException → ErrorCode
  | PyException.outOfBound _ => ErrorCode.ErrorOutOfBounds
  | PyException.outOfBoundSurface _ => ErrorCode.ErrorThroughSurface
  | PyException.timeExtrapolation _ => ErrorCode.ErrorTimeExtrapolation
  | PyException.other _ => ErrorCode.Error

/-- The try/except of the loop body (kernel.py lines 302-327), applied to the
particle after p.dt has been set to pdt_prekernels: obtain res from the call
res = pyfunc(p, fieldset, p.time), treat None as Success, let a state the
kernel itself set take precedence over a Success return (line 310), force
Repeat when a Success-returning kernel moved its own dt away from
pdt_prekernels (line 313), and on a raised condition assign the mapped error
code and retain the condition object on the particle (lines 316-327). -/
def runKernelOnce (pf : PyFuncRun) (fs : FieldSet) (p : Particle) : Particle × ErrorCode :=
  match pf p fs p.time with
  | PyResult.ret p2 r =>
    let res0 := r.getD ErrorCode.Success
    let res1 := if res0 = ErrorCode.Success ∧ p2.state ≠ p.state then p2.state else res0
    let res2 := if res1 = ErrorCode.Success ∧ ¬ IsClose p2.dt p.dt then ErrorCode.Repeat
      else res1
    (p2, res2)
  | PyResult.exc p2 e =>
    ({ p2 with exception := some e }, exceptionCode e)

/-- The while loop of execute_python for one particle (kernel.py lines
298-356), with explicit fuel for the unbounded while.  Each iteration backs
the particle up, sets p.dt = sign_dt * dt_pos, runs the kernel once, and
either advances time (Success/Delete, lines 330-344, breaking when dt is
close to 0) or records the error outcome, rolls every ptype variable except
dt and state back to the backup, and breaks (lines 345-356). -/
def kernelLoop (pf : PyFuncRun) (fs : FieldSet) (endtime dt : ℚ) (sign_dt : ℚ) :
    Nat → Particle → ℚ → Particle
  | 0, p, _ => p
  | fuel + 1, p, dt_pos =>
    if (p.state = ErrorCode.Evaluate ∨ p.state = ErrorCode.Repeat) ∨ IsClose dt 0 then
      let pdt_prekernels : ℚ := sign_dt * dt_pos
      let p1 : Particle := { p with dt := pdt_prekernels }
      let out := runKernelOnce pf fs p1
      let p2 := out.1
      let res := out.2
      if res = ErrorCode.Success ∨ res = ErrorCode.Delete then
        let p3 := Particle.update_next_dt { p2 with time := p2.time + p2.dt }
        let dt_pos1 := min |p3.dt| |endtime - p3.time|
        let sep := sign (endtime - p3.time)
        let res1 := if res ≠ ErrorCode.Delete ∧ ¬ IsClose dt_pos1 0 ∧ sep = sign_dt then
            ErrorCode.Evaluate
          else res
        let dt_pos2 := if sep ≠ sign_dt then (0 : ℚ) else dt_pos1
        let p4 : Particle := { p3 with state := res1 }
        if IsClose dt 0 then p4 else kernelLoop pf fs endtime dt sign_dt fuel p4 dt_pos2
      else
        { p2 with state := res,
                  time := p.time, lon := p.lon, lat := p.lat, depth := p.depth }
    else p

/-- execute_python for one particle (kernel.py lines 283-356): skip particles
that have not started or cannot move toward the horizon (marking those at or
beyond the horizon Success), except when dt is close to 0, in which case the
loop always runs one forced pass. -/
def processParticle (pf : PyFuncRun) (fs : FieldSet) (endtime dt : ℚ) (fuel : Nat)
    (p : Particle) : Particle :=
  let sign_dt := sign dt
  let sign_end_part := sign (endtime - p.time)
  let dt_pos := min |p.dt| |endtime - p.time|
  if (sign_end_part ≠ sign_dt ∨ IsClose dt_pos 0) ∧ ¬ IsClose dt 0 then
    if |endtime| ≤ |p.time| then { p with state := ErrorCode.Success } else p
  else kernelLoop pf fs endtime dt sign_dt fuel p dt_pos

/-- execute_python over the whole population (kernel.py lines 283-284). -/
def executePython (pf : PyFuncRun) (fs : FieldSet) (endtime dt : ℚ) (fuel : Nat)
    (ps : List Particle) : List Particle :=
  ps.map (processParticle pf fs endtime dt fuel)

/- ===================== Orchestrator (Kernel.execute) ===================== -/

/-- A recovery kernel: invoked as recovery_kernel(particle, fieldset,
particle.time) (kernel.py line 432). -/
def RKernel := Particle → FieldSet → ℚ → Particle

/-- Membership in the error-particle set (kernel.py lines 420 and 449): state
neither Success nor Evaluate. -/
def isErrorParticle (p : Particle) : Bool :=
  decide (p.state ≠ ErrorCode.Success ∧ p.state ≠ ErrorCode.Evaluate)

/-- The error-particle set of a population, in population order. -/
def errorParticles (ps : List Particle) : List Particle := ps.filter isErrorParticle

/-- remove_deleted (kernel.py lines 370-396): drop every particle whose state
is Delete (reporting to the output collaborator is outside this model). -/
def removeDeleted (ps : List Particle) : List Particle :=
  ps.filter fun p => decide (p.state ≠ ErrorCode.Delete)

/-- The recovery treatment of one error particle (kernel.py lines 427-437,
the StopExecution case excluded, which returns from execute and is handled by
recoverAll): Repeat resets to Evaluate; a state with a recovery-map entry
pre-sets the state to Success, runs the mapped recovery kernel with
(particle, fieldset, particle.time), and resets to Evaluate only if the
particle then signals completion; a state with no entry marks Delete. -/
def recoveryStep (rmap : ErrorCode → Option RKernel) (fs : FieldSet) (p : Particle) :
    Particle :=
  if p.state = ErrorCode.Repeat then p.reset_state
  else match rmap p.state with
    | some rk =>
      let p1 : Particle := { p with state := ErrorCode.Success }
      let p2 := rk p1 fs p1.time
      if p2.isComputed then p2.reset_state else p2
    | none => p.delete

/-- The for loop over the error particles (kernel.py lines 424-437): walk the
population in order, treat each error particle, and return from execute as
soon as a particle with state StopExecution is reached; the error value
carries the population as left at that moment (particles already treated keep
their treatment, the rest are untouched). -/
def recoverAll (rmap : ErrorCode → Option RKernel) (fs : FieldSet) :
    List Particle → Except (List Particle) (List Particle)
  | [] => Except.ok []
  | p :: rest =>
    if isErrorParticle p then
      if p.state = ErrorCode.StopExecution then Except.error (p :: rest)
      else
        let p1 := recoveryStep rmap fs p
        match recoverAll rmap fs rest with
        | Except.ok l => Except.ok (p1 :: l)
        | Except.error l => Except.error (p1 :: l)
    else
      match recoverAll rmap fs rest with
      | Except.ok l => Except.ok (p :: l)
      | Except.error l => Except.error (p :: l)

/-- How one execute call ends: aborted by StopExecution (the population as
left at the return), finished with an empty error set, or still looping when
the fuel runs out. -/
inductive ExecOutcome where
  | aborted (ps : List Particle)
  | finished (ps : List Particle)
  | outOfFuel (ps : List Particle)
  deriving DecidableEq, Repr

/-- The recovery while loop (kernel.py lines 422-449): while error particles
remain, treat them (returning early on StopExecution), remove deleted
particles, re-run the engine pass over the whole population, and recompute
the error set. -/
def recoveryLoop (rmap : ErrorCode → Option RKernel) (fs : FieldSet)
    (pass : List Particle → List Particle) : Nat → List Particle → ExecOutcome
  | 0, ps => ExecOutcome.outOfFuel ps
  | fuel + 1, ps =>
    if (errorParticles ps).isEmpty then ExecOutcome.finished ps
    else match recoverAll rmap fs ps with
      | Except.error ps1 => ExecOutcome.aborted ps1
      | Except.ok ps1 => recoveryLoop rmap fs pass fuel (pass (removeDeleted ps1))

/-- Kernel.execute on the interpreted path (kernel.py lines 358-449): reset
every particle state, run the engine pass, remove deleted particles, then run
the recovery loop. -/
def execute (pf : PyFuncRun) (fs : FieldSet) (rmap : ErrorCode → Option RKernel)
    (endtime dt : ℚ) (passFuel loopFuel : Nat) (ps : List Particle) : ExecOutcome :=
  let pass := executePython pf fs endtime dt passFuel
  let ps1 := pass (ps.map Particle.reset_state)
  recoveryLoop rmap fs pass loopFuel (removeDeleted ps1)

/- ===================== String helper lemmas ===================== -/

theorem str_data_append (a b : String) : (a ++ b).data = a.data ++ b.data := by
  cases a; cases b; rfl

theorem str_data_inj {a b : String} (h : a.data = b.data) : a = b := by
  cases a; cases b; exact congrArg String.mk h

theorem str_append_assoc (a b c : String) : (a ++ b) ++ c = a ++ (b ++ c) :=
  str_data_inj (by simp [str_data_append])

theorem str_append_right_cancel {a b c : String} (h : a ++ c = b ++ c) : a = b := by
  apply str_data_inj
  have h2 := congrArg String.data h
  rw [str_data_append, str_data_append] at h2
  exact List.append_cancel_right h2

theorem str_append_left_cancel {a b c : String} (h : a ++ b = a ++ c) : b = c := by
  apply str_data_inj
  have h2 := congrArg String.data h
  rw [str_data_append, str_data_append] at h2
  exact List.append_cancel_left h2

/-- Splitting a list at a separator that occurs in neither prefix is
unambiguous. -/
theorem sepSplit {α : Type} (sep : α) :
    ∀ (l1 l2 r1 r2 : List α), sep ∉ l1 → sep ∉ l2 →
      l1 ++ sep :: r1 = l2 ++ sep :: r2 → l1 = l2 ∧ r1 = r2 := by
  intro l1
  induction l1 with
  | nil =>
    intro l2 r1 r2 _ h2 h
    cases l2 with
    | nil => simpa using h
    | cons x xs =>
      simp only [List.nil_append, List.cons_append, List.cons.injEq] at h
      exact absurd (by rw [h.1]; exact List.mem_cons_self x xs) h2
  | cons x xs ih =>
    intro l2 r1 r2 h1 h2 h
    cases l2 with
    | nil =>
      simp only [List.nil_append, List.cons_append, List.cons.injEq] at h
      exact absurd (by rw [← h.1]; exact List.mem_cons_self x xs) h1
    | cons y ys =>
      simp only [List.cons_append, List.cons.injEq] at h
      obtain ⟨hxy, hrest⟩ := h
      have hr := ih ys r1 r2 (fun hm => h1 (List.mem_cons_of_mem _ hm))
        (fun hm => h2 (List.mem_cons_of_mem _ hm)) hrest
      exact ⟨by rw [hxy, hr.1], hr.2⟩

/-- The name:tag encoding of a field argument is injective as long as names
contain no colon. -/
theorem pairEncodeInj {a b c d : String}
    (ha : ':' ∉ a.data) (hc : ':' ∉ c.data)
    (h : a ++ ":" ++ b = c ++ ":" ++ d) : a = c ∧ b = d := by
  have hd := congrArg String.data h
  simp only [str_data_append] at hd
  have h2 : a.data ++ ':' :: b.data = c.data ++ ':' :: d.data := by
    simpa [List.append_assoc] using hd
  obtain ⟨h3, h4⟩ := sepSplit ':' a.data c.data b.data d.data ha hc h2
  exact ⟨str_data_inj h3, str_data_inj h4⟩

/-- "-".join is injective on lists of nonempty dash-free strings. -/
theorem joinDashInj : ∀ (xs ys : List String),
    (∀ x ∈ xs, '-' ∉ x.data ∧ x.data ≠ []) →
    (∀ y ∈ ys, '-' ∉ y.data ∧ y.data ≠ []) →
    joinDash xs = joinDash ys → xs = ys := by
  intro xs
  induction xs with
  | nil =>
    intro ys _ hys h
    cases ys with
    | nil => rfl
    | cons y ys2 =>
      exfalso
      cases ys2 with
      | nil =>
        have hd : ([] : List Char) = y.data := congrArg String.data h
        exact (hys y (List.mem_cons_self _ _)).2 hd.symm
      | cons z zs =>
        have hd := congrArg String.data h
        simp only [joinDash, str_data_append] at hd
        simp at hd
  | cons x xs2 ih =>
    intro ys hxs hys h
    cases ys with
    | nil =>
      exfalso
      cases xs2 with
      | nil =>
        have hd : x.data = ([] : List Char) := congrArg String.data h
        exact (hxs x (List.mem_cons_self _ _)).2 hd
      | cons z zs =>
        have hd := congrArg String.data h
        simp only [joinDash, str_data_append] at hd
        simp at hd
    | cons y ys2 =>
      cases xs2 with
      | nil =>
        cases ys2 with
        | nil => rw [show (joinDash [x]) = x from rfl, show (joinDash [y]) = y from rfl] at h; rw [h]
        | cons w ws =>
          exfalso
          have hd := congrArg String.data h
          simp only [joinDash, str_data_append] at hd
          have : '-' ∈ x.data := by
            rw [hd]; simp
          exact (hxs x (List.mem_cons_self _ _)).1 this
      | cons z zs =>
        cases ys2 with
        | nil =>
          exfalso
          have hd := congrArg String.data h
          simp only [joinDash, str_data_append] at hd
          have : '-' ∈ y.data := by
            rw [← hd]; simp
          exact (hys y (List.mem_cons_self _ _)).1 this
        | cons w ws =>
          have hd := congrArg String.data h
          simp only [joinDash, str_data_append] at hd
          have h2 : x.data ++ '-' :: (joinDash (z :: zs)).data
              = y.data ++ '-' :: (joinDash (w :: ws)).data := by
            simpa [List.append_assoc] using hd
          obtain ⟨h3, h4⟩ := sepSplit '-' _ _ _ _
            (hxs x (List.mem_cons_self _ _)).1 (hys y (List.mem_cons_self _ _)).1 h2
          have hx : x = y := str_data_inj h3
          have htail := ih (w :: ws)
            (fun u hu => hxs u (List.mem_cons_of_mem _ hu))
            (fun u hu => hys u (List.mem_cons_of_mem _ hu))
            (str_data_inj h4)
          rw [hx, htail]

/-- A field argument is well formed when its name contains no colon and
neither component contains a dash; this holds for the identifiers the code
generator produces as field names and for Python class names as unit tags. -/
def GoodField (fa : String × String) : Prop :=
  ':' ∉ fa.1.data ∧ '-' ∉ fa.1.data ∧ '-' ∉ fa.2.data

instance (fa : String × String) : Decidable (GoodField fa) :=
  inferInstanceAs (Decidable (_ ∧ _ ∧ _))

theorem goodFieldEncode {fa : String × String} (h : GoodField fa) :
    '-' ∉ (fa.1 ++ ":" ++ fa.2).data ∧ (fa.1 ++ ":" ++ fa.2).data ≠ [] := by
  obtain ⟨_, h2, h3⟩ := h
  have hd : (fa.1 ++ ":" ++ fa.2).data = fa.1.data ++ ':' :: fa.2.data := by
    simp [str_data_append, List.append_assoc]
  constructor
  · rw [hd]
    intro hmem
    rcases List.mem_append.mp hmem with hm | hm
    · exact h2 hm
    · rcases List.mem_cons.mp hm with hm2 | hm2
      · exact absurd hm2 (by decide)
      · exact h3 hm2
  · rw [hd]
    simp

/-- The joined field-key component determines the field-argument list, for
well-formed field arguments. -/
theorem fieldKeysInj : ∀ (f1 f2 : List (String × String)),
    (∀ fa ∈ f1, GoodField fa) → (∀ fa ∈ f2, GoodField fa) →
    fieldKeys f1 = fieldKeys f2 → f1 = f2 := by
  intro f1
  induction f1 with
  | nil =>
    intro f2 _ h2 h
    cases f2 with
    | nil => rfl
    | cons b bs =>
      exfalso
      have := joinDashInj [] ((b :: bs).map fun fa => fa.1 ++ ":" ++ fa.2)
        (by simp)
        (by intro y hy
            simp only [List.mem_map] at hy
            obtain ⟨fa, hfa, henc⟩ := hy
            rw [← henc]
            exact goodFieldEncode (h2 fa hfa))
        (by simpa only [fieldKeys] using h)
      simp at this
  | cons a as ih =>
    intro f2 h1 h2 h
    cases f2 with
    | nil =>
      exfalso
      have := joinDashInj ((a :: as).map fun fa => fa.1 ++ ":" ++ fa.2) []
        (by intro y hy
            simp only [List.mem_map] at hy
            obtain ⟨fa, hfa, henc⟩ := hy
            rw [← henc]
            exact goodFieldEncode (h1 fa hfa))
        (by simp)
        (by simpa only [fieldKeys] using h)
      simp at this
    | cons b bs =>
      have hj := joinDashInj ((a :: as).map fun fa => fa.1 ++ ":" ++ fa.2)
        ((b :: bs).map fun fa => fa.1 ++ ":" ++ fa.2)
        (by intro y hy
            simp only [List.mem_map] at hy
            obtain ⟨fa, hfa, henc⟩ := hy
            rw [← henc]
            exact goodFieldEncode (h1 fa hfa))
        (by intro y hy
            simp only [List.mem_map] at hy
            obtain ⟨fa, hfa, henc⟩ := hy
            rw [← henc]
            exact goodFieldEncode (h2 fa hfa))
        (by simpa only [fieldKeys] using h)
      simp only [List.map_cons, List.cons.injEq] at hj
      obtain ⟨hhead, htail⟩ := hj
      obtain ⟨hfst, hsnd⟩ := pairEncodeInj (h1 a (List.mem_cons_self _ _)).1
        (h2 b (List.mem_cons_self _ _)).1 hhead
      have heq : a = b := Prod.ext hfst hsnd
      have : as = bs := ih bs
        (fun fa hfa => h1 fa (List.mem_cons_of_mem _ hfa))
        (fun fa hfa => h2 fa (List.mem_cons_of_mem _ hfa))
        (by
          have : joinDash (as.map fun fa => fa.1 ++ ":" ++ fa.2)
              = joinDash (bs.map fun fa => fa.1 ++ ":" ++ fa.2) := by
            rw [htail]
          exact this)
      rw [heq, this]

/- ===================== Concrete fixtures ===================== -/

/-- A field set used by concrete instances. -/
def fs0 : FieldSet := { id := 0 }

/-- A second, distinct field set. -/
def fsB : FieldSet := { id := 2 }

/-- An interpreted-mode particle type. -/
def ptScipy : PType := { name := "PT", cache_key := "ptkey", uses_jit := false }

/-- A second, distinct particle type. -/
def ptB : PType := { name := "QT", cache_key := "qtkey", uses_jit := false }

/-- A three-parameter callable. -/
def fThree : PyFunc := {
  name := "Adv"
  source := "def Adv(particle, fieldset, time):%pass%"
  ast := { name := "Adv", argCount := 3, body := [{ id := 1 }] }
  varnames := ["particle", "fieldset", "time"] }

/-- A four-parameter callable. -/
def fFour : PyFunc := {
  name := "Bad"
  source := "def Bad(a, b, c, d):%pass%"
  ast := { name := "Bad", argCount := 4, body := [{ id := 2 }] }
  varnames := ["a", "b", "c", "d"] }

/-- A kernel over fs0/ptScipy with funcname f. -/
def kernelA : Kernel := {
  fieldset := fs0
  ptype := ptScipy
  funcname := "f"
  funccode := "srcf"
  py_ast := { name := "f", argCount := 3, body := [{ id := 10 }] }
  funcvars := ["particle", "fieldset", "time"]
  name := "PTf"
  delete_cfiles := true
  ccode := none }

/-- A kernel over the other field set and particle type, funcname g. -/
def kernelB : Kernel := {
  fieldset := fsB
  ptype := ptB
  funcname := "g"
  funccode := "srcg"
  py_ast := { name := "g", argCount := 3, body := [{ id := 20 }] }
  funcvars := ["particle", "fieldset", "time"]
  name := "QTg"
  delete_cfiles := true
  ccode := none }

/-- A kernel over fs0/ptScipy with funcname g. -/
def kernelC : Kernel := {
  fieldset := fs0
  ptype := ptScipy
  funcname := "g"
  funccode := "srcg"
  py_ast := { name := "g", argCount := 3, body := [{ id := 20 }] }
  funcvars := ["particle", "fieldset", "time"]
  name := "PTg"
  delete_cfiles := true
  ccode := none }

/-- A kernel over fs0/ptScipy with funcname h. -/
def kernelD : Kernel := {
  fieldset := fs0
  ptype := ptScipy
  funcname := "h"
  funccode := "srch"
  py_ast := { name := "h", argCount := 3, body := [{ id := 30 }] }
  funcvars := ["particle", "fieldset", "time"]
  name := "PTh"
  delete_cfiles := true
  ccode := none }

deriving instance DecidableEq for Except

/-- kernelA is what the constructor itself produces. -/
theorem kernelA_from_init :
    mkKernel fs0 ptScipy "f" "srcf" { name := "f", argCount := 3, body := [{ id := 10 }] }
      ["particle", "fieldset", "time"] true = Except.ok kernelA := by decide

/-- The record a successful construction produces, as an equation usable for
rewriting. -/
theorem mkKernelFromPyfunc_ok (fs : FieldSet) (pt : PType) (f : PyFunc)
    (h : f.ast.argCount = 3) :
    mkKernelFromPyfunc fs pt f = Except.ok {
      fieldset := fs
      ptype := pt
      funcname := f.name
      funccode := f.source
      py_ast := f.ast
      funcvars := f.varnames
      name := pt.name ++ f.name
      delete_cfiles := true
      ccode := if pt.uses_jit then
          some { fieldset := fs, ptype := pt, funcname := f.name,
                 py_ast := f.ast, funcvars := f.varnames }
        else none } := by
  simp [mkKernelFromPyfunc, mkKernel, h]

/-- The record a merge of two kernels produces when the left operand has the
usual three-parameter argument list, as an equation usable for rewriting. -/
theorem merge_ok (a b : Kernel) (h : a.py_ast.argCount = 3) :
    a.merge b = Except.ok {
      fieldset := a.fieldset
      ptype := a.ptype
      funcname := a.funcname ++ b.funcname
      funccode := a.funccode ++ b.funccode
      py_ast := { name := a.funcname ++ b.funcname, argCount := a.py_ast.argCount,
                  body := a.py_ast.body ++ b.py_ast.body }
      funcvars := a.funcvars ++ b.funcvars
      name := a.ptype.name ++ (a.funcname ++ b.funcname)
      delete_cfiles := a.delete_cfiles && b.delete_cfiles
      ccode := if a.ptype.uses_jit then
          some { fieldset := a.fieldset, ptype := a.ptype,
                 funcname := a.funcname ++ b.funcname,
                 py_ast := { name := a.funcname ++ b.funcname,
                             argCount := a.py_ast.argCount,
                             body := a.py_ast.body ++ b.py_ast.body },
                 funcvars := a.funcvars ++ b.funcvars }
        else none } := by
  simp [Kernel.merge, mkKernel, h]

/- ===================== C2: construction arity check ===================== -/

/-- C2: a Kernel constructed from a callable whose parameter count is not
exactly three fails with the arity error (the assertion at kernel.py line
127), before any code generation; a callable with exactly three parameters
passes the check and yields a kernel record. -/
theorem kernel_construction_arity (fs : FieldSet) (pt : PType) (f : PyFunc) :
    (f.ast.argCount ≠ 3 →
      mkKernelFromPyfunc fs pt f = Except.error KernelError.ArityError) ∧
    (f.ast.argCount = 3 → ∃ k, mkKernelFromPyfunc fs pt f = Except.ok k) := by
  constructor
  · intro h
    simp [mkKernelFromPyfunc, mkKernel, h]
  · intro h
    exact ⟨_, mkKernelFromPyfunc_ok fs pt f h⟩

/-- C2 witness: the arity check at concrete three- and four-parameter
callables. -/
theorem kernel_construction_arity_witness :
    mkKernelFromPyfunc fs0 ptScipy fFour = Except.error KernelError.ArityError ∧
    ∃ k, mkKernelFromPyfunc fs0 ptScipy fThree = Except.ok k :=
  ⟨(kernel_construction_arity fs0 ptScipy fFour).1 (by decide),
   (kernel_construction_arity fs0 ptScipy fThree).2 (by decide)⟩

/- ===================== C3: merge and compatibility ===================== -/

/-- C3 amended: merge performs no compatibility check and cannot fail with
IncompatibleKernelError; for every pair of kernels whose left operand has the
usual three-parameter argument list it returns a new Kernel over the left
operand field set and particle type — also when the operands disagree on
either — with concatenated funcname, source, body and free variables. -/
theorem merge_no_compatibility_check (a b : Kernel) (h : a.py_ast.argCount = 3) :
    ∃ m, a.merge b = Except.ok m ∧
      m.fieldset = a.fieldset ∧ m.ptype = a.ptype ∧
      m.funcname = a.funcname ++ b.funcname ∧
      m.funccode = a.funccode ++ b.funccode ∧
      m.py_ast.body = a.py_ast.body ++ b.py_ast.body ∧
      m.funcvars = a.funcvars ++ b.funcvars ∧
      m.name = a.ptype.name ++ (a.funcname ++ b.funcname) := by
  exact ⟨_, merge_ok a b h, rfl, rfl, rfl, rfl, rfl, rfl, rfl⟩

/-- C3 witness: a concrete mismatched pair still merges into a kernel with
the left operand particle type and field set. -/
theorem merge_no_compatibility_check_witness :
    ∃ m, kernelA.merge kernelB = Except.ok m ∧
      m.fieldset = kernelA.fieldset ∧ m.ptype = kernelA.ptype ∧
      m.funcname = kernelA.funcname ++ kernelB.funcname ∧
      m.funccode = kernelA.funccode ++ kernelB.funccode ∧
      m.py_ast.body = kernelA.py_ast.body ++ kernelB.py_ast.body ∧
      m.funcvars = kernelA.funcvars ++ kernelB.funcvars ∧
      m.name = kernelA.ptype.name ++ (kernelA.funcname ++ kernelB.funcname) :=
  merge_no_compatibility_check kernelA kernelB (by decide)

/-- C3 counterexample: two kernels that differ in both particle type and
field set; merge does not fail with IncompatibleKernelError but succeeds. -/
theorem merge_mismatched_succeeds :
    kernelA.ptype ≠ kernelB.ptype ∧ kernelA.fieldset ≠ kernelB.fieldset ∧
    kernelA.merge kernelB ≠ Except.error KernelError.IncompatibleKernelError ∧
    (kernelA.merge kernelB).isOk = true := by decide

/- ===================== C9: merge associativity ===================== -/

/-- C9: for kernels sharing particle type and field set (left operands with
the usual three-parameter argument list), merge is associative — both
bracketings give the same kernel record, hence the same name, concatenated
code, body and free variables — and merge is not commutative. -/
theorem merge_assoc_not_comm :
    (∀ a b c : Kernel,
      a.ptype = b.ptype → b.ptype = c.ptype →
      a.fieldset = b.fieldset → b.fieldset = c.fieldset →
      a.py_ast.argCount = 3 → b.py_ast.argCount = 3 →
      ∃ ab bc abc,
        a.merge b = Except.ok ab ∧ b.merge c = Except.ok bc ∧
        ab.merge c = Except.ok abc ∧ a.merge bc = Except.ok abc ∧
        abc.funcname = a.funcname ++ b.funcname ++ c.funcname ∧
        abc.funccode = a.funccode ++ b.funccode ++ c.funccode ∧
        abc.py_ast.body = a.py_ast.body ++ b.py_ast.body ++ c.py_ast.body ∧
        abc.funcvars = a.funcvars ++ b.funcvars ++ c.funcvars) ∧
    (∃ a b : Kernel, a.ptype = b.ptype ∧ a.fieldset = b.fieldset ∧
      a.py_ast.argCount = 3 ∧ b.py_ast.argCount = 3 ∧ a.merge b ≠ b.merge a) := by
  constructor
  · intro a b c _ _ _ _ ha hb
    refine ⟨_, _, _, merge_ok a b ha, merge_ok b c hb, merge_ok _ c ha, ?_, ?_, ?_, ?_, ?_⟩
    · rw [merge_ok a _ ha]
      congr 1
      simp [Kernel.mk.injEq, PyAST.mk.injEq, CCode.mk.injEq, str_append_assoc,
        List.append_assoc, Bool.and_assoc]
    · simp [str_append_assoc]
    · simp [str_append_assoc]
    · simp [List.append_assoc]
    · simp [List.append_assoc]
  · exact ⟨kernelA, kernelC, rfl, rfl, by decide, by decide, by decide⟩

/-- C9 witness: associativity instantiated at three concrete kernels over the
same particle type and field set. -/
theorem merge_assoc_not_comm_witness :
    ∃ ab bc abc,
      kernelA.merge kernelC = Except.ok ab ∧ kernelC.merge kernelD = Except.ok bc ∧
      ab.merge kernelD = Except.ok abc ∧ kernelA.merge bc = Except.ok abc ∧
      abc.funcname = kernelA.funcname ++ kernelC.funcname ++ kernelD.funcname ∧
      abc.funccode = kernelA.funccode ++ kernelC.funccode ++ kernelD.funccode ∧
      abc.py_ast.body = kernelA.py_ast.body ++ kernelC.py_ast.body ++ kernelD.py_ast.body ∧
      abc.funcvars = kernelA.funcvars ++ kernelC.funcvars ++ kernelD.funcvars :=
  merge_assoc_not_comm.1 kernelA kernelC kernelD rfl rfl rfl rfl (by decide) (by decide)

/- ===================== C10: __radd__ wraps plain callables ===================== -/

/-- C10: for a plain three-parameter callable f and kernel k, f + k wraps f
into a Kernel over the field set and particle type of k and merges it on the
left: the result is wrap(f).merge(k), its statements are the statements of f
followed by those of k, and its funcname is the name of f followed by the
funcname of k. -/
theorem radd_wraps_left (k : Kernel) (f : PyFunc) (h : f.ast.argCount = 3) :
    ∃ kf m, mkKernelFromPyfunc k.fieldset k.ptype f = Except.ok kf ∧
      kf.merge k = Except.ok m ∧ k.radd f = Except.ok m ∧
      m.funcname = f.name ++ k.funcname ∧
      m.py_ast.body = f.ast.body ++ k.py_ast.body ∧
      m.funccode = f.source ++ k.funccode ∧
      m.funcvars = f.varnames ++ k.funcvars ∧
      m.fieldset = k.fieldset ∧ m.ptype = k.ptype := by
  have hkf := mkKernelFromPyfunc_ok k.fieldset k.ptype f h
  refine ⟨_, _, hkf, merge_ok _ k h, ?_, rfl, rfl, rfl, rfl, rfl, rfl⟩
  rw [Kernel.radd, hkf]
  exact merge_ok _ k h

/-- C10 witness: a concrete plain callable added on the left of a concrete
kernel. -/
theorem radd_wraps_left_witness :
    ∃ kf m, mkKernelFromPyfunc kernelA.fieldset kernelA.ptype fThree = Except.ok kf ∧
      kf.merge kernelA = Except.ok m ∧ kernelA.radd fThree = Except.ok m ∧
      m.funcname = fThree.name ++ kernelA.funcname ∧
      m.py_ast.body = fThree.ast.body ++ kernelA.py_ast.body ∧
      m.funccode = fThree.source ++ kernelA.funccode ∧
      m.funcvars = fThree.varnames ++ kernelA.funcvars ∧
      m.fieldset = kernelA.fieldset ∧ m.ptype = kernelA.ptype :=
  radd_wraps_left kernelA fThree (by decide)

/- ===================== C1: cache identity ===================== -/

/-- C1 amended: the cache identity is the MD5 hex digest of
name + ptype cache key + joined field keys + wall-clock token.  With the
token held fixed, identical inputs give the same identity; and changing
exactly one of the kernel name, the particle-type cache key, or the
(well-formed) field-argument list changes the hashed key material.  (The
identity of two computations at different wall-clock instants differs; see
the counterexample theorem.) -/
theorem cache_identity_amended :
    (∀ n k f t1 t2, t1 = t2 → cacheKey n k f t1 = cacheKey n k f t2) ∧
    (∀ n1 n2 k f t, n1 ≠ n2 → cacheKeyInput n1 k f t ≠ cacheKeyInput n2 k f t) ∧
    (∀ n k1 k2 f t, k1 ≠ k2 → cacheKeyInput n k1 f t ≠ cacheKeyInput n k2 f t) ∧
    (∀ n k f1 f2 t, (∀ fa ∈ f1, GoodField fa) → (∀ fa ∈ f2, GoodField fa) →
      f1 ≠ f2 → cacheKeyInput n k f1 t ≠ cacheKeyInput n k f2 t) := by
  refine ⟨?_, ?_, ?_, ?_⟩
  · intro n k f t1 t2 h
    rw [h]
  · intro n1 n2 k f t hne h
    simp only [cacheKeyInput] at h
    have h2 := str_append_right_cancel (str_append_right_cancel h)
    exact hne (str_append_right_cancel h2)
  · intro n k1 k2 f t hne h
    simp only [cacheKeyInput] at h
    have h2 := str_append_right_cancel (str_append_right_cancel h)
    exact hne (str_append_left_cancel h2)
  · intro n k f1 f2 t h1 h2 hne h
    simp only [cacheKeyInput] at h
    have h3 := str_append_left_cancel (str_append_right_cancel h)
    exact hne (fieldKeysInj f1 f2 h1 h2 h3)

/-- C1 witness: the amended identity properties at concrete inputs. -/
theorem cache_identity_amended_witness :
    cacheKey "PTf" "ptkey" [("U", "UnitConverter")] "1.000000"
      = cacheKey "PTf" "ptkey" [("U", "UnitConverter")] "1.000000" ∧
    cacheKeyInput "PTf" "ptkey" [("U", "UnitConverter")] "1.000000"
      ≠ cacheKeyInput "PTg" "ptkey" [("U", "UnitConverter")] "1.000000" ∧
    cacheKeyInput "PTf" "ptkey" [("U", "UnitConverter")] "1.000000"
      ≠ cacheKeyInput "PTf" "qtkey" [("U", "UnitConverter")] "1.000000" ∧
    cacheKeyInput "PTf" "ptkey" [("U", "UnitConverter")] "1.000000"
      ≠ cacheKeyInput "PTf" "ptkey" [("V", "UnitConverter")] "1.000000" :=
  ⟨cache_identity_amended.1 "PTf" "ptkey" [("U", "UnitConverter")] "1.000000" "1.000000" rfl,
   cache_identity_amended.2.1 "PTf" "PTg" "ptkey" [("U", "UnitConverter")] "1.000000"
     (by decide),
   cache_identity_amended.2.2.1 "PTf" "ptkey" "qtkey" [("U", "UnitConverter")] "1.000000"
     (by decide),
   cache_identity_amended.2.2.2 "PTf" "ptkey" [("U", "UnitConverter")] [("V", "UnitConverter")]
     "1.000000" (by decide) (by decide) (by decide)⟩

set_option maxRecDepth 200000 in
/-- C1 counterexample: the identity embeds the wall-clock reading
(kernel.py line 183), so computing it twice with identical kernel name,
particle-type cache key and field arguments but at different instants yields
different identity values. -/
theorem cache_identity_not_stable_across_calls :
    cacheKey "PTf" "ptkey" [("U", "UnitConverter")] "1.000000"
      ≠ cacheKey "PTf" "ptkey" [("U", "UnitConverter")] "2.000000" := by decide

/- ===================== Interpreted-pass lemmas ===================== -/

theorem isclose_zero_zero : IsClose (0 : ℚ) 0 := by norm_num [IsClose]

/-- A particle ready for one engine pass, used by concrete instances. -/
def pEval : Particle := {
  time := 0, dt := 1, lon := 0, lat := 0, depth := 0,
  state := ErrorCode.Evaluate, exception := none, next_dt := none }

/- ===================== C7: rollback on failed invocation ===================== -/

/-- C7: when one kernel invocation inside the interpreted loop yields an
outcome other than Success or Delete, every backed-up particle variable
except dt and state is restored to its value from immediately before the
invocation — in particular time is unchanged — the state becomes the
outcome, dt keeps the value the kernel left, and iteration over the particle
stops for this pass (the result does not depend on the remaining fuel). -/
theorem rollback_on_failed_invocation (pf : PyFuncRun) (fs : FieldSet)
    (endtime dt : ℚ) (sign_dt : ℚ) (fuel : Nat) (p p2 : Particle) (dt_pos : ℚ)
    (res : ErrorCode)
    (hcond : (p.state = ErrorCode.Evaluate ∨ p.state = ErrorCode.Repeat) ∨ IsClose dt 0)
    (hrun : runKernelOnce pf fs { p with dt := sign_dt * dt_pos } = (p2, res))
    (h1 : res ≠ ErrorCode.Success) (h2 : res ≠ ErrorCode.Delete) :
    (kernelLoop pf fs endtime dt sign_dt (fuel + 1) p dt_pos).time = p.time ∧
    (kernelLoop pf fs endtime dt sign_dt (fuel + 1) p dt_pos).lon = p.lon ∧
    (kernelLoop pf fs endtime dt sign_dt (fuel + 1) p dt_pos).lat = p.lat ∧
    (kernelLoop pf fs endtime dt sign_dt (fuel + 1) p dt_pos).depth = p.depth ∧
    (kernelLoop pf fs endtime dt sign_dt (fuel + 1) p dt_pos).state = res ∧
    (kernelLoop pf fs endtime dt sign_dt (fuel + 1) p dt_pos).dt = p2.dt ∧
    (∀ fuel2, kernelLoop pf fs endtime dt sign_dt (fuel2 + 1) p dt_pos
      = kernelLoop pf fs endtime dt sign_dt (fuel + 1) p dt_pos) := by
  have hstep : ∀ fuel3 : Nat, kernelLoop pf fs endtime dt sign_dt (fuel3 + 1) p dt_pos
      = { p2 with state := res,
                  time := p.time, lon := p.lon, lat := p.lat, depth := p.depth } := by
    intro fuel3
    simp only [kernelLoop]
    rw [if_pos hcond]
    simp [hrun, h1, h2]
  rw [hstep]
  exact ⟨rfl, rfl, rfl, rfl, rfl, rfl, fun fuel2 => hstep fuel2⟩

/-- C7 witness: a kernel that mutates lon and then reports the generic Error
outcome; the loop restores lon and time and stops. -/
def pfErr : PyFuncRun := fun p _ _ => PyResult.ret { p with lon := 42 } (some ErrorCode.Error)

/-- C7 witness: rollback at a concrete particle and kernel. -/
theorem rollback_on_failed_invocation_witness :
    (kernelLoop pfErr fs0 10 1 1 (3 + 1) pEval 1).time = pEval.time ∧
    (kernelLoop pfErr fs0 10 1 1 (3 + 1) pEval 1).lon = pEval.lon ∧
    (kernelLoop pfErr fs0 10 1 1 (3 + 1) pEval 1).lat = pEval.lat ∧
    (kernelLoop pfErr fs0 10 1 1 (3 + 1) pEval 1).depth = pEval.depth ∧
    (kernelLoop pfErr fs0 10 1 1 (3 + 1) pEval 1).state = ErrorCode.Error ∧
    (kernelLoop pfErr fs0 10 1 1 (3 + 1) pEval 1).dt
      = ({ pEval with dt := 1, lon := 42 } : Particle).dt ∧
    (∀ fuel2, kernelLoop pfErr fs0 10 1 1 (fuel2 + 1) pEval 1
      = kernelLoop pfErr fs0 10 1 1 (3 + 1) pEval 1) :=
  rollback_on_failed_invocation pfErr fs0 10 1 1 3 pEval
    { pEval with dt := 1, lon := 42 } 1 ErrorCode.Error
    (Or.inl (Or.inl rfl)) (by with_unfolding_all decide) (by decide) (by decide)

/- ===================== C8: exception mapping ===================== -/

/-- C8: a field-access failure of out-of-bounds, through-surface or
time-extrapolation kind raised by the kernel invocation puts the particle in
ErrorOutOfBounds, ErrorThroughSurface or ErrorTimeExtrapolation
respectively, any other raised condition puts it in the generic Error state,
and in all cases the triggering condition object is retained on the
particle. -/
theorem exception_state_mapping (pf : PyFuncRun) (fs : FieldSet)
    (endtime dt : ℚ) (sign_dt : ℚ) (fuel : Nat) (p p2 : Particle) (dt_pos : ℚ)
    (e : PyException)
    (hcond : (p.state = ErrorCode.Evaluate ∨ p.state = ErrorCode.Repeat) ∨ IsClose dt 0)
    (hexc : pf { p with dt := sign_dt * dt_pos } fs p.time = PyResult.exc p2 e) :
    (kernelLoop pf fs endtime dt sign_dt (fuel + 1) p dt_pos).state = exceptionCode e ∧
    (kernelLoop pf fs endtime dt sign_dt (fuel + 1) p dt_pos).exception = some e ∧
    (∀ i, exceptionCode (PyException.outOfBound i) = ErrorCode.ErrorOutOfBounds) ∧
    (∀ i, exceptionCode (PyException.outOfBoundSurface i) = ErrorCode.ErrorThroughSurface) ∧
    (∀ i, exceptionCode (PyException.timeExtrapolation i) = ErrorCode.ErrorTimeExtrapolation) ∧
    (∀ i, exceptionCode (PyException.other i) = ErrorCode.Error) := by
  have hne : ¬ (exceptionCode e = ErrorCode.Success ∨ exceptionCode e = ErrorCode.Delete) := by
    cases e <;> simp [exceptionCode]
  have hrun : runKernelOnce pf fs { p with dt := sign_dt * dt_pos }
      = ({ p2 with exception := some e }, exceptionCode e) := by
    simp [runKernelOnce, hexc]
  have hstep : kernelLoop pf fs endtime dt sign_dt (fuel + 1) p dt_pos
      = { p2 with exception := some e, state := exceptionCode e,
                  time := p.time, lon := p.lon, lat := p.lat, depth := p.depth } := by
    simp only [kernelLoop]
    rw [if_pos hcond]
    simp [hrun, hne]
  rw [hstep]
  exact ⟨rfl, rfl, fun i => rfl, fun i => rfl, fun i => rfl, fun i => rfl⟩

/-- C8 witness: a kernel invocation that raises a through-surface condition. -/
def pfRaise : PyFuncRun := fun p _ _ => PyResult.exc p (PyException.outOfBoundSurface 7)

/-- C8 witness: the mapping at a concrete particle and raised condition. -/
theorem exception_state_mapping_witness :
    (kernelLoop pfRaise fs0 10 1 1 (3 + 1) pEval 1).state
      = exceptionCode (PyException.outOfBoundSurface 7) ∧
    (kernelLoop pfRaise fs0 10 1 1 (3 + 1) pEval 1).exception
      = some (PyException.outOfBoundSurface 7) ∧
    (∀ i, exceptionCode (PyException.outOfBound i) = ErrorCode.ErrorOutOfBounds) ∧
    (∀ i, exceptionCode (PyException.outOfBoundSurface i) = ErrorCode.ErrorThroughSurface) ∧
    (∀ i, exceptionCode (PyException.timeExtrapolation i) = ErrorCode.ErrorTimeExtrapolation) ∧
    (∀ i, exceptionCode (PyException.other i) = ErrorCode.Error) :=
  exception_state_mapping pfRaise fs0 10 1 1 3 pEval
    { pEval with dt := 1 } 1 (PyException.outOfBoundSurface 7)
    (Or.inl (Or.inl rfl)) (by with_unfolding_all decide)

/- ===================== C6: dt = 0 forced single pass ===================== -/

/-- C6 amended: with dt = 0 the interpreted pass performs exactly one forced
kernel invocation per particle — the result does not depend on the fuel, so
the per-particle loop terminates after one iteration — and particle.time is
not advanced: unchanged whenever the returning kernel itself leaves time and
dt unmodified (and its state and pending step size untouched), and restored
by the rollback when the invocation raises.  The final state is the
invocation outcome, which is Success in the benign case but can also be
Repeat, Delete or an error state (see the counterexample theorem). -/
theorem dt_zero_single_forced_invocation (pf : PyFuncRun) (fs : FieldSet)
    (endtime : ℚ) (fuel : Nat) (p : Particle) :
    (∀ fuel2 : Nat, processParticle pf fs endtime 0 (fuel + 1) p
      = processParticle pf fs endtime 0 (fuel2 + 1) p) ∧
    (∀ p2 r, pf { p with dt := 0 } fs p.time = PyResult.ret p2 r →
      r = none → p2.state = p.state → p2.dt = 0 → p2.time = p.time →
      p2.next_dt = none →
      (processParticle pf fs endtime 0 (fuel + 1) p).time = p.time ∧
      (processParticle pf fs endtime 0 (fuel + 1) p).state = ErrorCode.Success) ∧
    (∀ p2 e, pf { p with dt := 0 } fs p.time = PyResult.exc p2 e →
      (processParticle pf fs endtime 0 (fuel + 1) p).time = p.time) := by
  have h00 : IsClose (0 : ℚ) 0 := isclose_zero_zero
  have hdtpos : sign (0 : ℚ) * (min |p.dt| |endtime - p.time|) = 0 := by
    simp [sign]
  have houter : ∀ f3 : Nat, processParticle pf fs endtime 0 f3 p
      = kernelLoop pf fs endtime 0 (sign 0) f3 p (min |p.dt| |endtime - p.time|) := by
    intro f3
    simp [processParticle, h00]
  refine ⟨?_, ?_, ?_⟩
  · intro fuel2
    rw [houter, houter]
    simp [kernelLoop, h00]
  · intro p2 r hexec hr hst hdt htime hnext
    have hrun : runKernelOnce pf fs { p with dt := sign 0 * (min |p.dt| |endtime - p.time|) }
        = (p2, ErrorCode.Success) := by
      rw [hdtpos]
      simp [runKernelOnce, hexec, hr, hst, hdt, h00]
    have hmin : min |(0 : ℚ)| |endtime - (p.time + 0)| = 0 := by
      rw [abs_zero]
      exact min_eq_left (abs_nonneg _)
    rw [houter]
    simp only [kernelLoop]
    rw [if_pos (Or.inr h00)]
    simp [hrun, h00, hdt, htime, hnext, Particle.update_next_dt, hmin]
  · intro p2 e hexc
    have hrun : runKernelOnce pf fs { p with dt := sign 0 * (min |p.dt| |endtime - p.time|) }
        = ({ p2 with exception := some e }, exceptionCode e) := by
      rw [hdtpos]
      simp [runKernelOnce, hexc]
    have hne : ¬ (exceptionCode e = ErrorCode.Success ∨ exceptionCode e = ErrorCode.Delete) := by
      cases e <;> simp [exceptionCode]
    rw [houter]
    simp only [kernelLoop]
    rw [if_pos (Or.inr h00)]
    simp [hrun, hne]

/-- A kernel that does not touch its particle. -/
def pfId : PyFuncRun := fun p _ _ => PyResult.ret p none

/-- C6 witness: a benign kernel, dt = 0, concrete particle: one forced pass,
time unchanged, final state Success. -/
theorem dt_zero_single_forced_invocation_witness :
    (processParticle pfId fs0 10 0 (4 + 1) pEval
      = processParticle pfId fs0 10 0 (0 + 1) pEval) ∧
    (processParticle pfId fs0 10 0 (4 + 1) pEval).time = pEval.time ∧
    (processParticle pfId fs0 10 0 (4 + 1) pEval).state = ErrorCode.Success :=
  ⟨(dt_zero_single_forced_invocation pfId fs0 10 4 pEval).1 0,
   ((dt_zero_single_forced_invocation pfId fs0 10 4 pEval).2.1
     { pEval with dt := 0 } none rfl rfl rfl rfl rfl rfl).1,
   ((dt_zero_single_forced_invocation pfId fs0 10 4 pEval).2.1
     { pEval with dt := 0 } none rfl rfl rfl rfl rfl rfl).2⟩

/-- A kernel that moves its own dt to 5 and returns None. -/
def pfDtFive : PyFuncRun := fun p _ _ => PyResult.ret { p with dt := 5 } none

/-- C6 counterexample: with dt = 0 a kernel that changes its own dt leaves
the particle in Repeat after the single forced invocation — neither Success
nor any of the four error states, refuting the claimed dichotomy. -/
theorem dt_zero_outcome_repeat :
    (processParticle pfDtFive fs0 10 0 1 pEval).state = ErrorCode.Repeat ∧
    ErrorCode.Repeat ≠ ErrorCode.Success ∧
    ErrorCode.Repeat ≠ ErrorCode.Error ∧
    ErrorCode.Repeat ≠ ErrorCode.ErrorOutOfBounds ∧
    ErrorCode.Repeat ≠ ErrorCode.ErrorThroughSurface ∧
    ErrorCode.Repeat ≠ ErrorCode.ErrorTimeExtrapolation := by
  with_unfolding_all decide

/- ===================== C4: recovery step ===================== -/

/-- C4 amended: for an error particle (state not Repeat) whose state has a
recovery-map entry, the mapped recovery kernel is run with the particle (its
state pre-set to Success, kernel.py line 431), the field set, and the
particle time; the state is then reset to Evaluate exactly when the particle
signals completion — its state is still Success after the recovery call —
and otherwise the particle is returned as the recovery kernel left it (so a
recovery kernel that sets Delete sends the particle to removal rather than
leaving it pending; see the counterexample theorem). -/
theorem recovery_step_behaviour (rmap : ErrorCode → Option RKernel) (fs : FieldSet)
    (p : Particle) (rk : RKernel)
    (hrep : p.state ≠ ErrorCode.Repeat)
    (hmap : rmap p.state = some rk) :
    ((rk { p with state := ErrorCode.Success } fs p.time).state = ErrorCode.Success →
      recoveryStep rmap fs p
        = { rk { p with state := ErrorCode.Success } fs p.time
            with state := ErrorCode.Evaluate }) ∧
    ((rk { p with state := ErrorCode.Success } fs p.time).state ≠ ErrorCode.Success →
      recoveryStep rmap fs p = rk { p with state := ErrorCode.Success } fs p.time) := by
  constructor <;> intro h <;>
    simp [recoveryStep, hrep, hmap, Particle.isComputed, Particle.reset_state, h]

/-- A recovery kernel that repairs lon and leaves the state alone (so the
pre-set Success survives: completion is signalled). -/
def rkLon : RKernel := fun q _ _ => { q with lon := 99 }

/-- A recovery kernel that marks the particle deleted (no completion
signal). -/
def rkDel : RKernel := fun q _ _ => { q with state := ErrorCode.Delete }

/-- A recovery map sending out-of-bounds to the lon-repairing kernel. -/
def rmapLon : ErrorCode → Option RKernel :=
  fun s => if s = ErrorCode.ErrorOutOfBounds then some rkLon else none

/-- A recovery map sending the generic error to the deleting kernel. -/
def rmapDel : ErrorCode → Option RKernel :=
  fun s => if s = ErrorCode.Error then some rkDel else none

/-- The fixture particle in the out-of-bounds error state. -/
def pOOB : Particle := { pEval with state := ErrorCode.ErrorOutOfBounds }

/-- The fixture particle in the generic error state. -/
def pErrState : Particle := { pEval with state := ErrorCode.Error }

/-- The fixture particle signalling StopExecution. -/
def pStop : Particle := { pEval with state := ErrorCode.StopExecution }

/-- The fixture particle in the Success state. -/
def pSucc : Particle := { pEval with state := ErrorCode.Success }

/-- C4 witness: both branches of the recovery step at concrete particles,
recovery kernels and maps. -/
theorem recovery_step_behaviour_witness :
    recoveryStep rmapLon fs0 pOOB
      = { rkLon { pOOB with state := ErrorCode.Success } fs0 pOOB.time
          with state := ErrorCode.Evaluate } ∧
    recoveryStep rmapDel fs0 pErrState
      = rkDel { pErrState with state := ErrorCode.Success } fs0 pErrState.time :=
  ⟨(recovery_step_behaviour rmapLon fs0 pOOB rkLon (by decide) rfl).1 rfl,
   (recovery_step_behaviour rmapDel fs0 pErrState rkDel (by decide) rfl).2 (by decide)⟩

/-- C4 counterexample: a recovery kernel that marks the particle deleted
never signals completion, yet the particle does not remain in the
error-particle set for subsequent recovery iterations — it is removed and the
recovery loop finishes with an empty population. -/
theorem recovery_delete_removes_particle :
    recoveryLoop rmapDel fs0 (executePython pfId fs0 10 1 2) 3 [pErrState]
      = ExecOutcome.finished [] ∧
    Particle.isComputed (rkDel { pErrState with state := ErrorCode.Success } fs0
      pErrState.time) = false := by
  with_unfolding_all decide

/- ===================== C5: StopExecution aborts execute ===================== -/

/-- The error-particle iteration returns from execute at the first particle
whose state is StopExecution, leaving everything from that particle on
untouched. -/
theorem recoverAll_stops_at_first_stop (rmap : ErrorCode → Option RKernel)
    (fs : FieldSet) :
    ∀ (pre : List Particle) (p : Particle) (post : List Particle),
      p.state = ErrorCode.StopExecution →
      (∀ q ∈ pre, isErrorParticle q = false) →
      recoverAll rmap fs (pre ++ p :: post) = Except.error (pre ++ p :: post) := by
  intro pre
  induction pre with
  | nil =>
    intro p post hstop _
    have herr : isErrorParticle p = true := by simp [isErrorParticle, hstop]
    simp [recoverAll, herr, hstop]
  | cons q qs ih =>
    intro p post hstop hpre
    have hq : isErrorParticle q = false := hpre q (List.mem_cons_self _ _)
    have ht := ih p post hstop fun u hu => hpre u (List.mem_cons_of_mem _ hu)
    simp [recoverAll, hq, ht]

/-- C5 amended: when the error-particle set reaches a particle in state
StopExecution, the whole recovery loop returns the aborted population
immediately — no deletion pass, no engine pass and no further recovery
follows; if every particle before the StopExecution particle is a non-error
particle, the population is returned completely untouched.  (Error particles
ordered before it have already been treated in the same sweep; see the
counterexample theorem.) -/
theorem stop_execution_aborts (rmap : ErrorCode → Option RKernel) (fs : FieldSet)
    (pass : List Particle → List Particle) (fuel : Nat)
    (pre post : List Particle) (p : Particle)
    (hstop : p.state = ErrorCode.StopExecution)
    (hpre : ∀ q ∈ pre, isErrorParticle q = false) :
    recoveryLoop rmap fs pass (fuel + 1) (pre ++ p :: post)
      = ExecOutcome.aborted (pre ++ p :: post) := by
  have herr : isErrorParticle p = true := by simp [isErrorParticle, hstop]
  have hmem : p ∈ errorParticles (pre ++ p :: post) := by
    simp [errorParticles, List.mem_filter, herr]
  have hne : (errorParticles (pre ++ p :: post)).isEmpty = false := by
    cases hE : (errorParticles (pre ++ p :: post)).isEmpty
    · rfl
    · exfalso
      rw [List.isEmpty_iff] at hE
      rw [hE] at hmem
      simp at hmem
  simp only [recoveryLoop]
  rw [if_neg (by simp [hne])]
  rw [recoverAll_stops_at_first_stop rmap fs pre p post hstop hpre]

/-- C5 witness: a Success particle followed by a StopExecution particle; the
recovery loop aborts with the population untouched. -/
theorem stop_execution_aborts_witness :
    recoveryLoop rmapDel fs0 (executePython pfId fs0 10 1 2) 3 ([pSucc] ++ pStop :: [])
      = ExecOutcome.aborted ([pSucc] ++ pStop :: []) :=
  stop_execution_aborts rmapDel fs0 (executePython pfId fs0 10 1 2) 2 [pSucc] [] pStop
    rfl (by decide)

/-- C5 counterexample: with an out-of-bounds particle ordered before the
StopExecution particle in the error set, the mapped recovery kernel runs —
mutating lon and resetting the state — before the call returns, refuting
that the call returns immediately without applying further recovery whenever
a StopExecution particle is present in the processed error set. -/
theorem stop_execution_abort_after_recovery :
    recoveryLoop rmapLon fs0 (executePython pfId fs0 10 1 2) 3 [pOOB, pStop]
      = ExecOutcome.aborted
          [{ pEval with lon := 99, state := ErrorCode.Evaluate }, pStop] ∧
    ({ pEval with lon := 99, state := ErrorCode.Evaluate } : Particle).lon ≠ pOOB.lon := by
  with_unfolding_all decide

end Parcels
